import Mathlib

/-!
Shallow embedding of the paginated media gallery controller
(`PaginatedMediaGallery`) and of the text-resize handler
(`updateForResizeEvent`) of the web-stories-wp repository, together with
theorems settling the specification claims about them.

Conventions of the embedding:
- DOM geometry values (scrollTop, scrollHeight, clientHeight, ...) are
  integers; the source only compares and subtracts them, so the embedding
  is order-faithful.
- A callback-invoking code path is embedded as a function returning the
  number of times the callback is invoked.
- A React effect with a dependency array is embedded as a step function
  that runs the effect body exactly when the listed dependencies changed.
-/

namespace WebStories

/-- Geometry of the scrollable gallery container (the DOM node held in
`refContainer.current`). -/
structure ContainerNode where
  scrollTop : Int
  scrollLeft : Int
  scrollHeight : Int
  clientHeight : Int
  offsetWidth : Int
  clientWidth : Int
deriving DecidableEq, Repr

/-- Proximity margin: load the next page when within this distance of the
container bottom (source constant `ROOT_MARGIN = 300`). -/
def ROOT_MARGIN : Int := 300

/-- Delay before the loading pill shows (source constant
`SHOW_LOADING_PILL_DELAY_MS = 1000`). -/
def SHOW_LOADING_PILL_DELAY_MS : Nat := 1000

/-- Embedding of `loadNextPageIfNeeded`. Returns the number of times the
`setNextPage` callback is invoked during one evaluation.

Source:
```
const node = refContainer.current;
if (!node || !hasMore || !isMediaLoaded || isMediaLoading) return;
const bottom =
  node.scrollHeight - node.scrollTop <= node.clientHeight + ROOT_MARGIN;
if (bottom) { setNextPage(); return; }
if (node.clientHeight === node.scrollHeight) { setNextPage(); return; }
```
-/
def loadNextPageIfNeeded (node : Option ContainerNode)
    (hasMore isMediaLoaded isMediaLoading : Bool) : Nat :=
  match node with
  | none => 0
  | some n =>
    if !hasMore || !isMediaLoaded || isMediaLoading then 0
    else if n.scrollHeight - n.scrollTop ≤ n.clientHeight + ROOT_MARGIN then 1
    else if n.clientHeight == n.scrollHeight then 1
    else 0

/-- The props of PaginatedMediaGallery that the embedded effects read
(callbacks and the resource list are kept abstract by the claims and are
not fields here; resources only feed rendering, not the effects below). -/
structure GalleryProps where
  providerType : String
  searchTerm : String
  selectedCategoryId : String
  isMediaLoading : Bool
  isMediaLoaded : Bool
  hasMore : Bool
deriving DecidableEq, Repr

/-- Embedding of `scrollTo(x, y)` on the container: sets scrollLeft to x
and scrollTop to y. -/
def scrollTo (n : ContainerNode) (x y : Int) : ContainerNode :=
  { n with scrollLeft := x, scrollTop := y }

/-- Body of the scroll-reset effect:
`refContainer.current?.scrollTo(0, 0)` — a no-op when the ref is absent. -/
def scrollResetEffect (node : Option ContainerNode) : Option ContainerNode :=
  node.map (fun n => scrollTo n 0 0)

/-- Dependency array of the scroll-reset effect:
`[searchTerm, selectedCategoryId]`. -/
def scrollResetDeps (p : GalleryProps) : String × String :=
  (p.searchTerm, p.selectedCategoryId)

/-- One re-render step for the scroll-reset effect: the effect body runs
exactly when a listed dependency changed between the old and new props. -/
def renderScrollReset (oldP newP : GalleryProps)
    (node : Option ContainerNode) : Option ContainerNode :=
  if scrollResetDeps oldP = scrollResetDeps newP then node
  else scrollResetEffect node

/-- Event-listener targets attached by the scroll/resize effect. -/
inductive GalleryListener where
  | scroll
  | resize
deriving DecidableEq, Repr

/-- Embedding of the listener-attaching effect:
`const node = refContainer.current; if (!node) return undefined;` then the
scroll listener is added on the node and the resize listener on the
window. Returns the list of attached listeners. -/
def attachListeners (node : Option ContainerNode) : List GalleryListener :=
  match node with
  | none => []
  | some _ => [GalleryListener.scroll, GalleryListener.resize]

/-- Embedding of `refCallbackContainer`: stores the element in the ref and,
when the element is present, recomputes the scrollbar width as
`offsetWidth - clientWidth`; when absent it returns early and the stored
width is unchanged. -/
def refCallbackContainer (element : Option ContainerNode)
    (scrollbarWidth : Int) : Int :=
  match element with
  | none => scrollbarWidth
  | some e => e.offsetWidth - e.clientWidth

/-- Embedding of the padding-recomputation layout effect, as the resulting
padding-right of the container. `scrollbarWidth` is the dependency that
changed, `currentPaddingLeft` is the computed padding-left read from the
style, and `paddingRight` is the padding-right before the effect runs.

Source:
```
if (!scrollbarWidth) return;
const currentPaddingLeft = parseFloat(... padding-left ...);
style of padding-right := currentPaddingLeft - scrollbarWidth, in px;
```
`!scrollbarWidth` is true exactly when the width is 0, and then the effect
returns without touching padding-right. -/
def paddingEffect (scrollbarWidth currentPaddingLeft paddingRight : Int) :
    Int :=
  if scrollbarWidth = 0 then paddingRight
  else currentPaddingLeft - scrollbarWidth

/-- The concrete container of claim C3: scrollHeight 1000, scrollTop 750,
clientHeight 200, so distance to bottom is 50, within the 300 margin. -/
def c3Node : ContainerNode :=
  { scrollTop := 750, scrollLeft := 0, scrollHeight := 1000
    clientHeight := 200, offsetWidth := 200, clientWidth := 200 }

/-- A text element as consumed by updateForResizeEvent; only width (used
for the newWidth fallback) matters to the handler itself, the measurement
functions consume the element abstractly. -/
structure TextElement where
  width : Int
  height : Int
  fontSize : Int
deriving DecidableEq, Repr

/-- Return value of updateForResizeEvent when it is not null: either a
font-size update with a skipUpdates flag, or a height update. -/
inductive ResizeUpdate where
  | fontSizeUpdate (fontSize : Int) ( skipUpdates : Bool)
  | heightUpdate (height : Int)
deriving DecidableEq, Repr

/-- Embedding of updateForResizeEvent. The imported measurement helpers
calculateFitTextFontSize, calculateTextHeight, dataPixels and the
resizeRules.minFontSize constant live outside the given sources, so they
are taken as parameters; the handler is the Moveable resize callback:
```
const isResizingWidth = direction[0] !== 0;
const isResizingHeight = direction[1] !== 0;
const isSizingUp = delta ? delta[0] + delta[1] > 0 : true;
if (isResizingHeight) {
  const fontSize = calculateFitTextFontSize(
    element, newWidth || element.width, newHeight);
  const fontSizeInDataPx = dataPixels(fontSize);
  return { fontSize: fontSizeInDataPx,
           skipUpdates: !isSizingUp && fontSizeInDataPx < minFontSize };
}
if (isResizingWidth) {
  return { height: dataPixels(calculateTextHeight(element, newWidth)) };
}
return null;
```
A null delta makes isSizingUp default to true, and a zero newWidth falls
back to the element width (JavaScript falsiness). -/
def updateForResizeEvent
    (calculateFitTextFontSize : TextElement → Int → Int → Int)
    (calculateTextHeight : TextElement → Int → Int)
    (dataPixels : Int → Int) (minFontSize : Int)
    (element : TextElement) (direction : Int × Int)
    (newWidth newHeight : Int) (delta : Option (Int × Int)) :
    Option ResizeUpdate :=
  let isResizingWidth : Bool := direction.1 != 0
  let isResizingHeight : Bool := direction.2 != 0
  let isSizingUp : Bool :=
    match delta with
    | some dl => decide (0 < dl.1 + dl.2)
    | none => true
  if isResizingHeight then
    let fontSize :=
      calculateFitTextFontSize element
        (if newWidth = 0 then element.width else newWidth) newHeight
    let fontSizeInDataPx := dataPixels fontSize
    some (ResizeUpdate.fontSizeUpdate fontSizeInDataPx
      (!isSizingUp && decide (fontSizeInDataPx < minFontSize)))
  else if isResizingWidth then
    some (ResizeUpdate.heightUpdate
      (dataPixels (calculateTextHeight element newWidth)))
  else
    none

/-- State of the loading-pill effect: the current values of the effect
dependencies isMediaLoading and hasMore, the pending delayed timer (its
remaining time, if armed), and the showLoadingPill flag. -/
structure PillState where
  isMediaLoading : Bool
  hasMore : Bool
  timer : Option Nat
  showLoadingPill : Bool
deriving DecidableEq, Repr

/-- Events driving the loading-pill effect: the dependencies take new
values (a re-render), or time passes with no prop change. -/
inductive PillEvent where
  | props (isMediaLoading hasMore : Bool)
  | elapse (d : Nat)
deriving DecidableEq, Repr

/-- Body of the loading-pill effect, run after its cleanup cleared any
pending timer:
```
if (isMediaLoading && hasMore) \x7b
  const showLoadingTimeout = setTimeout(() => \x7b
    setShowLoadingPill(isMediaLoading);
  \x7d, SHOW_LOADING_PILL_DELAY_MS);
  return () => clearTimeout(showLoadingTimeout);
\x7d
setShowLoadingPill(false);
```
-/
def pillEffect (isMediaLoading hasMore : Bool) (s : PillState) : PillState :=
  if isMediaLoading && hasMore then
    { isMediaLoading := isMediaLoading, hasMore := hasMore
      timer := some SHOW_LOADING_PILL_DELAY_MS
      showLoadingPill := s.showLoadingPill }
  else
    { isMediaLoading := isMediaLoading, hasMore := hasMore
      timer := none, showLoadingPill := false }

/-- One step of the loading-pill machine. A props event runs the effect
exactly when a dependency changed (React skips the effect otherwise). An
elapse event counts the pending timer down; when it expires, the timeout
callback sets showLoadingPill to the isMediaLoading value it captured,
which equals the current one because any dependency change would have
cancelled the timer first. -/
def pillStep (s : PillState) : PillEvent → PillState
  | PillEvent.props l m =>
    if l = s.isMediaLoading ∧ m = s.hasMore then s
    else pillEffect l m s
  | PillEvent.elapse d =>
    match s.timer with
    | none => s
    | some r =>
      if r ≤ d then { s with timer := none, showLoadingPill := s.isMediaLoading }
      else { s with timer := some (r - d) }

/-- Run of the loading-pill machine over a list of events. -/
def pillRun (s : PillState) (evs : List PillEvent) : PillState :=
  evs.foldl pillStep s

/-- Initial state: showLoadingPill is initialised by useState(false) and no
timer is pending; the mount is modelled as the first props event. -/
def pillInit : PillState :=
  { isMediaLoading := false, hasMore := false
    timer := none, showLoadingPill := false }

/-- Recognises a time-passing event. -/
def isElapse : PillEvent → Bool
  | PillEvent.elapse _ => true
  | PillEvent.props _ _ => false

/-- Total time passing in a list of events. -/
def elapsedTime : List PillEvent → Nat
  | [] => 0
  | PillEvent.elapse d :: rest => d + elapsedTime rest
  | PillEvent.props _ _ :: rest => elapsedTime rest

/-- Invariant of the loading-pill machine: whenever the dependencies are
not both true, the pill is hidden and no timer is pending. -/
def PillInv (s : PillState) : Prop :=
  ¬ (s.isMediaLoading = true ∧ s.hasMore = true) →
    s.showLoadingPill = false ∧ s.timer = none

theorem pillStep_inv (s : PillState) (e : PillEvent) (hs : PillInv s) :
    PillInv (pillStep s e) := by
  cases e with
  | props l m =>
    by_cases hdep : l = s.isMediaLoading ∧ m = s.hasMore
    · simpa [pillStep, hdep] using hs
    · intro hc
      by_cases hlm : (l && m) = true
      · rcases Bool.and_eq_true l m |>.mp hlm with ⟨hl, hm⟩
        simp only [pillStep, if_neg hdep, pillEffect, if_pos hlm] at hc
        exact absurd ⟨hl, hm⟩ hc
      · simp [pillStep, if_neg hdep, pillEffect, hlm]
  | elapse d =>
    cases htimer : s.timer with
    | none => simpa [pillStep, htimer] using hs
    | some r =>
      by_cases hlm : s.isMediaLoading = true ∧ s.hasMore = true
      · by_cases hr : r ≤ d <;>
          simp [pillStep, htimer, hr, PillInv, hlm.1, hlm.2]
      · exact absurd (hs hlm).2 (by simp [htimer])

theorem pillRun_inv (s : PillState) (evs : List PillEvent) (hs : PillInv s) :
    PillInv (pillRun s evs) := by
  induction evs generalizing s with
  | nil => exact hs
  | cons e rest ih => exact ih (pillStep s e) (pillStep_inv s e hs)

theorem pillRun_no_timer (s : PillState) (evs : List PillEvent)
    (hall : evs.all isElapse = true) (ht : s.timer = none) :
    pillRun s evs = s := by
  induction evs with
  | nil => rfl
  | cons e rest ih =>
    rw [List.all_cons, Bool.and_eq_true] at hall
    rcases hall with ⟨he, hrest⟩
    cases e with
    | props l m => simp [isElapse] at he
    | elapse d =>
      show pillRun (pillStep s (PillEvent.elapse d)) rest = s
      rw [show pillStep s (PillEvent.elapse d) = s by simp [pillStep, ht]]
      exact ih hrest

theorem pillRun_timer_fires (evs : List PillEvent) (s : PillState)
    (r : Nat) (hall : evs.all isElapse = true) (ht : s.timer = some r)
    (hr : 0 < r) (helapsed : r ≤ elapsedTime evs) :
    pillRun s evs =
      { s with timer := none, showLoadingPill := s.isMediaLoading } := by
  induction evs generalizing s r with
  | nil => simp [elapsedTime] at helapsed; omega
  | cons e rest ih =>
    rw [List.all_cons, Bool.and_eq_true] at hall
    rcases hall with ⟨he, hrest⟩
    cases e with
    | props l m => simp [isElapse] at he
    | elapse d =>
      by_cases hd : r ≤ d
      · show pillRun (pillStep s (PillEvent.elapse d)) rest = _
        rw [show pillStep s (PillEvent.elapse d) =
            { s with timer := none, showLoadingPill := s.isMediaLoading }
          by simp [pillStep, ht, hd]]
        exact pillRun_no_timer _ rest hrest rfl
      · show pillRun (pillStep s (PillEvent.elapse d)) rest = _
        rw [show pillStep s (PillEvent.elapse d) = { s with timer := some (r - d) }
          by simp [pillStep, ht, hd]]
        have hsum : r - d ≤ elapsedTime rest := by
          simp only [elapsedTime] at helapsed; omega
        exact ih _ _ hrest rfl (by omega) hsum

theorem pillRun_timer_holds (evs : List PillEvent) (s : PillState)
    (r : Nat) (hall : evs.all isElapse = true) (ht : s.timer = some r)
    (helapsed : elapsedTime evs < r) :
    pillRun s evs = { s with timer := some (r - elapsedTime evs) } := by
  induction evs generalizing s r with
  | nil =>
    cases s
    simp_all [pillRun, elapsedTime]
  | cons e rest ih =>
    rw [List.all_cons, Bool.and_eq_true] at hall
    rcases hall with ⟨he, hrest⟩
    cases e with
    | props l m => simp [isElapse] at he
    | elapse d =>
      have hd : ¬ r ≤ d := by simp only [elapsedTime] at helapsed; omega
      show pillRun (pillStep s (PillEvent.elapse d)) rest = _
      rw [show pillStep s (PillEvent.elapse d) = { s with timer := some (r - d) }
        by simp [pillStep, ht, hd]]
      have hrest2 : elapsedTime rest < r - d := by
        simp only [elapsedTime] at helapsed; omega
      rw [ih _ _ hrest rfl hrest2]
      have harith : r - d - elapsedTime rest =
          r - elapsedTime (PillEvent.elapse d :: rest) := by
        simp only [elapsedTime]
        omega
      rw [harith]

end WebStories

namespace WebStories

/-- Claim C1: for every state in which hasMore is false, an evaluation of
loadNextPageIfNeeded never invokes the setNextPage callback, regardless of
the container geometry (scrollTop, scrollHeight, clientHeight). -/
theorem c1_hasMore_false_never_fetches (node : Option ContainerNode)
    (isMediaLoaded isMediaLoading : Bool) :
    loadNextPageIfNeeded node false isMediaLoaded isMediaLoading = 0 := by
  cases node <;> simp [loadNextPageIfNeeded]

/-- Claim C2: for every state in which isMediaLoading is true, an evaluation
of loadNextPageIfNeeded does not invoke the setNextPage callback, so no
duplicate request is emitted until loading completes. -/
theorem c2_isLoading_true_never_fetches (node : Option ContainerNode)
    (hasMore isMediaLoaded : Bool) :
    loadNextPageIfNeeded node hasMore isMediaLoaded true = 0 := by
  cases node <;> simp [loadNextPageIfNeeded]

/-- Claim C3 as stated is false: it fixes only hasMore = true and
isMediaLoading = false, but the source guard also returns early when
isMediaLoaded is false, and then setNextPage is not invoked even on the
concrete geometry of the claim (with isMediaLoaded = false the count is 0,
not 1). -/
theorem c3_counterexample :
    loadNextPageIfNeeded (some c3Node) true false false ≠ 1 := by decide

/-- Claim C3 (amended): with scrollHeight 1000, scrollTop 750, clientHeight
200 (distance to bottom 50, within the 300 margin) and hasMore = true,
isMediaLoaded = true, isMediaLoading = false, one evaluation of
loadNextPageIfNeeded invokes setNextPage exactly once. -/
theorem c3_near_bottom_fetches_once :
    loadNextPageIfNeeded (some c3Node) true true false = 1 := by decide

/-- Claim C4 as stated is false: it quantifies over every state with
clientHeight = scrollHeight and hasMore = true, but when isMediaLoading is
true the guard suppresses the fetch, so on a concrete underfull container
(clientHeight = scrollHeight = 500, scrollTop = 0) with hasMore = true,
isMediaLoaded = true, isMediaLoading = true, setNextPage is not invoked. -/
theorem c4_counterexample :
    loadNextPageIfNeeded
      (some { scrollTop := 0, scrollLeft := 0, scrollHeight := 500
              clientHeight := 500, offsetWidth := 200, clientWidth := 200 })
      true true true = 0 := by decide

/-- Claim C4 (amended): for every container with clientHeight equal to
scrollHeight (no overflow) and hasMore = true, isMediaLoaded = true,
isMediaLoading = false, an evaluation of loadNextPageIfNeeded invokes
setNextPage, whatever scrollTop is (in particular zero). -/
theorem c4_underfull_fetches (n : ContainerNode)
    (h : n.clientHeight = n.scrollHeight) :
    loadNextPageIfNeeded (some n) true true false = 1 := by
  simp only [loadNextPageIfNeeded]
  rw [h]
  by_cases hb : n.scrollHeight - n.scrollTop ≤ n.scrollHeight + ROOT_MARGIN <;>
    simp [hb]

/-- Witness for the amended claim C4 at a concrete underfull container with
zero scroll. -/
theorem c4_underfull_fetches_witness :
    loadNextPageIfNeeded
      (some { scrollTop := 0, scrollLeft := 0, scrollHeight := 500
              clientHeight := 500, offsetWidth := 200, clientWidth := 200 })
      true true false = 1 :=
  c4_underfull_fetches
    { scrollTop := 0, scrollLeft := 0, scrollHeight := 500
      clientHeight := 500, offsetWidth := 200, clientWidth := 200 } rfl

/-- Claim C9: a single evaluation of loadNextPageIfNeeded invokes
setNextPage at most once, for every container geometry and every flag
state, even when both trigger conditions (near the bottom, and clientHeight
equal to scrollHeight) hold simultaneously: the early return after the
first trigger prevents a second invocation. -/
theorem c9_at_most_one_fetch (node : Option ContainerNode)
    (hasMore isMediaLoaded isMediaLoading : Bool) :
    loadNextPageIfNeeded node hasMore isMediaLoaded isMediaLoading ≤ 1 := by
  cases node with
  | none => simp [loadNextPageIfNeeded]
  | some n =>
    simp only [loadNextPageIfNeeded]
    split
    · exact Nat.zero_le 1
    · split
      · exact Nat.le_refl 1
      · split
        · exact Nat.le_refl 1
        · exact Nat.zero_le 1

/-- Claim C6: whenever the search term or the selected category changes
between renders, the container scroll position is reset to the origin
(scrollLeft = 0 and scrollTop = 0); when both are unchanged the effect is
skipped and the container is untouched, whatever the other props did. -/
theorem c6_scroll_reset_on_filter_change (oldP newP : GalleryProps)
    (n : ContainerNode) :
    (oldP.searchTerm ≠ newP.searchTerm ∨
        oldP.selectedCategoryId ≠ newP.selectedCategoryId →
      renderScrollReset oldP newP (some n) =
        some { n with scrollLeft := 0, scrollTop := 0 }) ∧
    (oldP.searchTerm = newP.searchTerm ∧
        oldP.selectedCategoryId = newP.selectedCategoryId →
      renderScrollReset oldP newP (some n) = some n) := by
  constructor
  · intro hchange
    have hne : scrollResetDeps oldP ≠ scrollResetDeps newP := by
      simp only [scrollResetDeps, Prod.mk.injEq, ne_eq, not_and]
      intro hs
      rcases hchange with h | h
      · exact absurd hs h
      · intro hc; exact absurd hc h
    simp [renderScrollReset, hne, scrollResetEffect, scrollTo]
  · intro ⟨hs, hc⟩
    have heq : scrollResetDeps oldP = scrollResetDeps newP := by
      simp [scrollResetDeps, hs, hc]
    simp [renderScrollReset, heq]

/-- Witness for claim C6 at concrete props: a search-term change resets a
concrete container to the origin, and with both deps equal (but the
loading flag changed) the container is untouched. -/
theorem c6_scroll_reset_witness :
    renderScrollReset
      { providerType := "unsplash", searchTerm := "cat"
        selectedCategoryId := "c1", isMediaLoading := false
        isMediaLoaded := true, hasMore := true }
      { providerType := "unsplash", searchTerm := "dog"
        selectedCategoryId := "c1", isMediaLoading := false
        isMediaLoaded := true, hasMore := true }
      (some c3Node) =
      some { c3Node with scrollLeft := 0, scrollTop := 0 } ∧
    renderScrollReset
      { providerType := "unsplash", searchTerm := "cat"
        selectedCategoryId := "c1", isMediaLoading := false
        isMediaLoaded := true, hasMore := true }
      { providerType := "unsplash", searchTerm := "cat"
        selectedCategoryId := "c1", isMediaLoading := true
        isMediaLoaded := true, hasMore := true }
      (some c3Node) = some c3Node :=
  ⟨(c6_scroll_reset_on_filter_change _ _ _).1 (Or.inl (by decide)),
   (c6_scroll_reset_on_filter_change _ _ _).2 ⟨rfl, rfl⟩⟩

/-- Claim C7: when the container ref is absent, every path is a no-op:
loadNextPageIfNeeded returns without invoking setNextPage (count 0), the
scroll-reset effect leaves the absent container absent, and the listener
effect attaches no listeners. All three embedded functions are total, so
none of these paths raises an exception. -/
theorem c7_absent_ref_noops (hasMore isMediaLoaded isMediaLoading : Bool)
    (oldP newP : GalleryProps) :
    loadNextPageIfNeeded none hasMore isMediaLoaded isMediaLoading = 0 ∧
    renderScrollReset oldP newP none = none ∧
    attachListeners none = [] := by
  refine ⟨rfl, ?_, rfl⟩
  simp only [renderScrollReset, scrollResetEffect, Option.map_none]
  split <;> rfl

/-- Claim C8 as stated is false: when the scrollbar width changes to zero
(the scrollbar disappears) the effect returns early and does not recompute
the padding compensation. Concretely, with scrollbarWidth 0, padding-left
24 and previous padding-right 9, the resulting padding-right is the stale
9, not 24 - 0 as the claim requires. -/
theorem c8_counterexample : paddingEffect 0 24 9 ≠ 24 - 0 := by decide

/-- Claim C8 (amended): whenever the scrollbar width changes to a nonzero
value, the effect recomputes the container padding-right compensation to
equal the existing left padding minus the scrollbar width; when the width
changes to zero, the effect leaves the padding-right unchanged. -/
theorem c8_padding_compensation (sw pl pr : Int) :
    (sw ≠ 0 → paddingEffect sw pl pr = pl - sw) ∧
    (sw = 0 → paddingEffect sw pl pr = pr) := by
  constructor
  · intro h; simp [paddingEffect, h]
  · intro h; simp [paddingEffect, h]

/-- Witness for the amended claim C8: a scrollbar of width 15 with
padding-left 24 yields padding-right 9, and width 0 keeps the previous
padding-right 9. -/
theorem c8_padding_compensation_witness :
    paddingEffect 15 24 9 = 24 - 15 ∧ paddingEffect 0 24 9 = 9 :=
  ⟨(c8_padding_compensation 15 24 9).1 (by decide),
   (c8_padding_compensation 0 24 9).2 rfl⟩

/-- Claim C5: the loading pill becomes visible only when isMediaLoading
stays true, with hasMore true, for the full 1000-unit delay of the armed
timer (strictly less elapsed time leaves it hidden, at least the delay
shows it), and any dependency change that makes isMediaLoading or hasMore
false hides the pill immediately and cancels the pending timer. The first
conjunct follows a transition of the dependencies to (true, true) from a
state where they were not both true and the pill was hidden, through
time-passing events only; the second conjunct applies in every reachable
state. -/
theorem c5_loading_pill_delay_and_reset :
    (∀ (s : PillState) (evs : List PillEvent),
      s.showLoadingPill = false →
      ¬ (s.isMediaLoading = true ∧ s.hasMore = true) →
      evs.all isElapse = true →
      (elapsedTime evs < SHOW_LOADING_PILL_DELAY_MS →
        (pillRun (pillStep s (PillEvent.props true true))
            evs).showLoadingPill = false) ∧
      (SHOW_LOADING_PILL_DELAY_MS ≤ elapsedTime evs →
        (pillRun (pillStep s (PillEvent.props true true))
            evs).showLoadingPill = true)) ∧
    (∀ (evs : List PillEvent) (l m : Bool),
      ¬ (l = true ∧ m = true) →
      (pillStep (pillRun pillInit evs)
          (PillEvent.props l m)).showLoadingPill = false ∧
      (pillStep (pillRun pillInit evs) (PillEvent.props l m)).timer = none) := by
  constructor
  · intro s evs hpill hnotboth hall
    have hdep : ¬ (true = s.isMediaLoading ∧ true = s.hasMore) := by
      intro ⟨h1, h2⟩; exact hnotboth ⟨h1.symm, h2.symm⟩
    have hstep : pillStep s (PillEvent.props true true) =
        { isMediaLoading := true, hasMore := true
          timer := some SHOW_LOADING_PILL_DELAY_MS
          showLoadingPill := s.showLoadingPill } := by
      simp only [pillStep, if_neg hdep, pillEffect]
      rfl
    constructor
    · intro hlt
      rw [hstep, pillRun_timer_holds evs _ SHOW_LOADING_PILL_DELAY_MS hall rfl hlt]
      exact hpill
    · intro hge
      rw [hstep, pillRun_timer_fires evs _ SHOW_LOADING_PILL_DELAY_MS hall rfl
        (by decide) hge]
  · intro evs l m hnotboth
    have hinv : PillInv (pillRun pillInit evs) :=
      pillRun_inv pillInit evs (fun _ => ⟨rfl, rfl⟩)
    set t := pillRun pillInit evs with ht
    by_cases hdep : l = t.isMediaLoading ∧ m = t.hasMore
    · have hres := hinv (by
        intro ⟨h1, h2⟩
        exact hnotboth ⟨hdep.1.trans h1, hdep.2.trans h2⟩)
      simpa [pillStep, hdep] using hres
    · have hlm : ¬ ((l && m) = true) := by
        intro hb
        exact hnotboth (Bool.and_eq_true l m |>.mp hb)
      simp [pillStep, hdep, pillEffect, hlm]

/-- Witness for claim C5: from the initial state, after the dependencies
become (true, true), 999 units leave the pill hidden, 500 + 500 units make
it visible, and a subsequent change to isMediaLoading = false hides it and
cancels the timer. -/
theorem c5_loading_pill_witness :
    (pillRun (pillStep pillInit (PillEvent.props true true))
        [PillEvent.elapse 999]).showLoadingPill = false ∧
    (pillRun (pillStep pillInit (PillEvent.props true true))
        [PillEvent.elapse 500, PillEvent.elapse 500]).showLoadingPill = true ∧
    (pillStep (pillRun pillInit [PillEvent.props true true])
        (PillEvent.props false true)).showLoadingPill = false :=
  ⟨(c5_loading_pill_delay_and_reset.1 pillInit [PillEvent.elapse 999] rfl
      (by decide) rfl).1 (by decide),
   (c5_loading_pill_delay_and_reset.1 pillInit
      [PillEvent.elapse 500, PillEvent.elapse 500] rfl (by decide) rfl).2
      (by decide),
   (c5_loading_pill_delay_and_reset.2 [PillEvent.props true true] false true
      (by decide)).1⟩

/-- Claim C10: updateForResizeEvent returns null exactly when both
direction components are zero; when direction[1] is nonzero it returns a
fontSize/skipUpdates update (never a height update, even if direction[0]
is also nonzero); when only direction[0] is nonzero it returns a height
update. -/
theorem c10_updateForResizeEvent_shape
    (fit : TextElement → Int → Int → Int)
    (textHeight : TextElement → Int → Int)
    (dataPixels : Int → Int) (minFontSize : Int) (element : TextElement)
    (direction : Int × Int) (newWidth newHeight : Int)
    (delta : Option (Int × Int)) :
    (updateForResizeEvent fit textHeight dataPixels minFontSize element
        direction newWidth newHeight delta = none ↔
      direction.1 = 0 ∧ direction.2 = 0) ∧
    (direction.2 ≠ 0 →
      ∃ fs su, updateForResizeEvent fit textHeight dataPixels minFontSize
          element direction newWidth newHeight delta =
        some (ResizeUpdate.fontSizeUpdate fs su)) ∧
    (direction.1 ≠ 0 → direction.2 = 0 →
      ∃ h, updateForResizeEvent fit textHeight dataPixels minFontSize
          element direction newWidth newHeight delta =
        some (ResizeUpdate.heightUpdate h)) := by
  by_cases h2 : direction.2 = 0 <;> by_cases h1 : direction.1 = 0 <;>
    simp [updateForResizeEvent, h1, h2]

/-- Witness for claim C10 at concrete inputs: a vertical-only resize gives
a font-size update, a horizontal-only resize gives a height update, and a
zero direction gives null. -/
theorem c10_updateForResizeEvent_witness :
    (∃ fs su, updateForResizeEvent (fun _ _ _ => 10) (fun _ _ => 20)
        (fun x => x) 5 { width := 100, height := 40, fontSize := 12 }
        (0, 1) 0 60 none = some (ResizeUpdate.fontSizeUpdate fs su)) ∧
    (∃ h, updateForResizeEvent (fun _ _ _ => 10) (fun _ _ => 20)
        (fun x => x) 5 { width := 100, height := 40, fontSize := 12 }
        (1, 0) 90 60 (some (1, 0)) = some (ResizeUpdate.heightUpdate h)) ∧
    updateForResizeEvent (fun _ _ _ => 10) (fun _ _ => 20)
        (fun x => x) 5 { width := 100, height := 40, fontSize := 12 }
        (0, 0) 90 60 none = none :=
  ⟨(c10_updateForResizeEvent_shape (fun _ _ _ => 10) (fun _ _ => 20)
      (fun x => x) 5 { width := 100, height := 40, fontSize := 12 }
      (0, 1) 0 60 none).2.1 (by decide),
   (c10_updateForResizeEvent_shape (fun _ _ _ => 10) (fun _ _ => 20)
      (fun x => x) 5 { width := 100, height := 40, fontSize := 12 }
      (1, 0) 90 60 (some (1, 0))).2.2 (by decide) rfl,
   (c10_updateForResizeEvent_shape (fun _ _ _ => 10) (fun _ _ => 20)
      (fun x => x) 5 { width := 100, height := 40, fontSize := 12 }
      (0, 0) 90 60 none).1.mpr ⟨rfl, rfl⟩⟩

end WebStories
